import Mathlib

/-!
Verification of the pySimPro generic REST client core.

This file gives a shallow embedding, in Lean, of the two source files
`simpro.py` and `simple_bootstrap.py`, and proves (or refutes) the frozen
claims about them:

- Python dicts are modelled as association lists (`Dict`) with Python
  semantics: lookup returns the first matching key, assignment overwrites
  in place or appends, and `update` folds assignment of the entries
  of the other dict in order.
- Python JSON-ish values are modelled by the inductive `PyVal`.
- `SimProObject` instances (`__init__`, line 195 of `simpro.py`) are
  modelled by the inductive `SPObj`: a record id, a parent reference
  which terminates at the `Parentless` sentinel, the class's
  `type_url_suffix`, and an attribute mapping.
- The network is external: list responses are modelled as the simulated
  server of the specification (a fixed record list served in pages of
  250 with a next-link exactly while records remain), retrieve
  responses as explicit response values, and `requests` exceptions as
  the error values they carry (`HTTPError` with a status, or any other
  exception).

Machine integers do not occur (Python ints are unbounded); record ids are
natural numbers as the server assigns them.
-/

namespace PySimPro

-- ## Python dictionaries as association lists

/-- Python dict over `String` keys, as an association list in key
insertion order. -/
abbrev Dict (α : Type) := List (String × α)

/-- Python `d.get(k, None)`: value at the first matching key. -/
def Dict.get {α : Type} : Dict α → String → Option α
  | [], _ => none
  | (k', v) :: rest, k => if k' = k then some v else Dict.get rest k

/-- Python `k in d`. -/
def Dict.hasKey {α : Type} (d : Dict α) (k : String) : Bool :=
  (Dict.get d k).isSome

/-- Python assignment into a dict: overwrite the first matching key in
place, else append at the end. -/
def Dict.insert {α : Type} : Dict α → String → α → Dict α
  | [], k, v => [(k, v)]
  | (k', v') :: rest, k, v =>
      if k' = k then (k, v) :: rest else (k', v') :: Dict.insert rest k v

/-- Python `d.update(e)`: assign every entry of `e` into `d` in order. -/
def Dict.update {α : Type} (d : Dict α) : Dict α → Dict α
  | [] => d
  | (k, v) :: rest => Dict.update (Dict.insert d k v) rest

/-- Keys are pairwise distinct, as in every genuine Python dict. -/
def Dict.NodupKeys {α : Type} (d : Dict α) : Prop :=
  (d.map Prod.fst).Nodup

theorem Dict.get_insert {α : Type} (d : Dict α) (k k' : String) (v : α) :
    Dict.get (Dict.insert d k v) k'
      = if k' = k then some v else Dict.get d k' := by
  induction d with
  | nil =>
    by_cases hk : k' = k
    · subst hk
      simp [Dict.insert, Dict.get]
    · have hk2 : ¬ k = k' := fun h => hk h.symm
      simp [Dict.insert, Dict.get, hk, hk2]
  | cons head rest ih =>
    obtain ⟨k0, v0⟩ := head
    by_cases h0 : k0 = k
    · subst h0
      by_cases hk : k' = k0
      · subst hk
        simp [Dict.insert, Dict.get]
      · have hk2 : ¬ k0 = k' := fun h => hk h.symm
        simp [Dict.insert, Dict.get, hk, hk2]
    · by_cases h1 : k0 = k'
      · subst h1
        have h2 : ¬ k0 = k := h0
        simp [Dict.insert, Dict.get, h0, h2]
      · simp [Dict.insert, Dict.get, h0, h1, ih]

theorem Dict.hasKey_insert {α : Type} (d : Dict α) (k k' : String) (v : α) :
    Dict.hasKey (Dict.insert d k v) k' = (k' = k || Dict.hasKey d k') := by
  by_cases hk : k' = k <;> simp [Dict.hasKey, Dict.get_insert, hk]

theorem Dict.get_update_of_not_hasKey {α : Type} (d e : Dict α) (k : String)
    (h : Dict.hasKey e k = false) :
    Dict.get (Dict.update d e) k = Dict.get d k := by
  induction e generalizing d with
  | nil => rfl
  | cons head rest ih =>
    obtain ⟨k0, v0⟩ := head
    by_cases h0 : k0 = k
    · subst h0
      simp [Dict.hasKey, Dict.get] at h
    · have hrest : Dict.hasKey rest k = false := by
        simpa [Dict.hasKey, Dict.get, h0] using h
      show Dict.get (Dict.update (Dict.insert d k0 v0) rest) k = Dict.get d k
      rw [ih (Dict.insert d k0 v0) hrest, Dict.get_insert]
      have h1 : ¬ k = k0 := fun hk => h0 hk.symm
      simp [h1]

theorem Dict.hasKey_update {α : Type} (d e : Dict α) (k : String) :
    Dict.hasKey (Dict.update d e) k = (Dict.hasKey d k || Dict.hasKey e k) := by
  induction e generalizing d with
  | nil => simp [Dict.update, Dict.hasKey, Dict.get]
  | cons head rest ih =>
    obtain ⟨k0, v0⟩ := head
    show Dict.hasKey (Dict.update (Dict.insert d k0 v0) rest) k = _
    rw [ih (Dict.insert d k0 v0), Dict.hasKey_insert]
    by_cases h0 : k0 = k
    · subst h0
      simp [Dict.hasKey, Dict.get]
    · have h1 : ¬ k = k0 := fun hk => h0 hk.symm
      simp only [Dict.hasKey, Dict.get, if_neg h0]
      simp [h1, Bool.or_assoc]

theorem Dict.hasKey_eq_false_of_not_mem {α : Type} (d : Dict α) (k : String)
    (h : k ∉ d.map Prod.fst) : Dict.hasKey d k = false := by
  induction d with
  | nil => rfl
  | cons head rest ih =>
    obtain ⟨k0, v0⟩ := head
    simp only [List.map_cons, List.mem_cons, not_or] at h
    have h0 : ¬ k0 = k := fun hk => h.1 hk.symm
    have := ih h.2
    simpa [Dict.hasKey, Dict.get, h0] using this

theorem Dict.get_update_of_get {α : Type} (d e : Dict α) (k : String) (v : α)
    (hnodup : Dict.NodupKeys e) (h : Dict.get e k = some v) :
    Dict.get (Dict.update d e) k = some v := by
  induction e generalizing d with
  | nil => simp [Dict.get] at h
  | cons head rest ih =>
    obtain ⟨k0, v0⟩ := head
    simp only [Dict.NodupKeys, List.map_cons, List.nodup_cons] at hnodup
    by_cases h0 : k0 = k
    · subst h0
      simp only [Dict.get, if_pos rfl] at h
      obtain rfl : v0 = v := Option.some.inj h
      have hrest : Dict.hasKey rest k0 = false :=
        Dict.hasKey_eq_false_of_not_mem rest k0 hnodup.1
      show Dict.get (Dict.update (Dict.insert d k0 v0) rest) k0 = some v0
      rw [Dict.get_update_of_not_hasKey (Dict.insert d k0 v0) rest k0 hrest,
        Dict.get_insert]
      simp
    · simp only [Dict.get, if_neg h0] at h
      exact ih (Dict.insert d k0 v0) hnodup.2 h

theorem Dict.hasKey_of_get {α : Type} (d : Dict α) (k : String) (v : α)
    (h : Dict.get d k = some v) : Dict.hasKey d k = true := by
  simp [Dict.hasKey, h]

-- ## Python values

/-- JSON-ish Python values appearing in attribute mappings. -/
inductive PyVal where
  | str (s : String)
  | int (n : Int)
  | list (xs : List PyVal)
  | dict (entries : List (String × PyVal))

-- ## Constants and the object tree (`simpro.py` lines 24-44, 195-203)

/-- Environment-provided configuration (`os.environ["simpro_company_domain"]`,
`simpro.py` line 26). The token exchange is out of core scope. -/
structure Env where
  companyDomain : String

/-- BASE_URL (`simpro.py` line 27). -/
def BASE_URL (env : Env) : String :=
  "https://" ++ env.companyDomain ++ ".simprosuite.com"

/-- BASE_API_URL (`simpro.py` line 28). -/
def BASE_API_URL (env : Env) : String :=
  BASE_URL env ++ "/api/v1.0"

/-- A `SimProObject` instance, or the `Parentless` sentinel (`simpro.py`
lines 39-43). An instance holds its class's `type_url_suffix`, its
`record_id`, a reference to its parent, and its attribute mapping
(`__init__`, lines 195-203). Parent chains are finite by construction,
terminating at `parentless`. -/
inductive SPObj where
  | parentless : SPObj
  | mk (type_url_suffix : String) (record_id : Nat) (parent : SPObj)
      (attributes : Dict PyVal) : SPObj

/-- The `obj_url` property (`simpro.py` lines 76-89): the parent's
`obj_url` followed by the class's `type_url_suffix` and `str(record_id)`;
`Parentless.obj_url` is `BASE_API_URL` (line 43). -/
def SPObj.obj_url (env : Env) : SPObj → String
  | .parentless => BASE_API_URL env
  | .mk sfx rid parent _ => SPObj.obj_url env parent ++ sfx ++ toString rid

-- ## Column projection (`simpro.py` lines 50-62)

/-- `SimProObject._columns_to_params` (`simpro.py` lines 50-62). The
input is `None` or the caller's list; the code appends `"ID"` to that
very list in place (line 58), then rebinds the local name to a set and
joins it. The first component is the params value (the Python set's
iteration order is unspecified; we model it as the list with later
duplicates dropped, which no claim depends on); the second component is
the caller's list as it stands after the call (the observable in-place
mutation). -/
def _columns_to_params (columns : Option (List String)) : String × List String :=
  let cols := columns.getD []
  let colsAfter := cols ++ ["ID"]
  (String.intercalate "," colsAfter.eraseDups, colsAfter)

-- ## Pagination (`simpro.py` lines 108-150)

/-- One simulated page response for a parent holding `records` on the
server, as the specification describes the transport: a page request
with 1-based index `page` and page size 250 returns the corresponding
slice ordered by id, and the response carries a `next` link relation
exactly when records remain beyond this page. Each raw record is its
`"ID"` field paired with its remaining attributes, since `_list_all`
unconditionally pops `"ID"` (line 130). -/
def simulated_page (records : List (Nat × Dict PyVal)) (page : Nat) :
    List (Nat × Dict PyVal) × Bool :=
  ((records.drop ((page - 1) * 250)).take 250, page * 250 < records.length)

/-- The `while params["page"] is not None` loop of `_list_all`
(`simpro.py` lines 123-139), run against the simulated server: decode
every record of the page into an instance (lines 129-132); if the
response carries a `next` link relation, increment the page and
continue, else stop (lines 134-139). Returns the decoded instances in
page order together with the number of page requests issued. -/
def _list_all_loop (records : List (Nat × Dict PyVal)) (cls_sfx : String)
    (parent : SPObj) (page : Nat) : List SPObj × Nat :=
  let response := simulated_page records page
  let decoded := response.1.map (fun r => SPObj.mk cls_sfx r.1 parent r.2)
  if h : (simulated_page records page).2 then
    let rest := _list_all_loop records cls_sfx parent (page + 1)
    (decoded ++ rest.1, rest.2 + 1)
  else
    (decoded, 1)
termination_by records.length + 250 - page * 250
decreasing_by
  simp only [simulated_page, decide_eq_true_eq] at h
  omega

/-- Observable outcome of one `list_all` call: the decoded children,
the number of page requests issued, and the caller's column list as it
stands after the call. -/
structure ListAllRun where
  children : List SPObj
  requests : Nat
  columns_after : List String

/-- `SimProObject._list_all` (`simpro.py` lines 108-143): convert the
columns (mutating the caller's list), then drive the page loop starting
at `page = 1` with `pageSize` fixed at 250. -/
def _list_all (records : List (Nat × Dict PyVal)) (cls_sfx : String)
    (parent : SPObj) (columns : List String) : ListAllRun :=
  let cp := _columns_to_params (some columns)
  let run := _list_all_loop records cls_sfx parent 1
  ⟨run.1, run.2, cp.2⟩

/-- `SimProObject.list_all` (`simpro.py` lines 145-150): default `None`
to a fresh empty list, then delegate to `_list_all`. -/
def list_all (records : List (Nat × Dict PyVal)) (cls_sfx : String)
    (parent : SPObj) (columns : Option (List String)) : ListAllRun :=
  let cols := columns.getD []
  _list_all records cls_sfx parent cols

/-- `Company.list_all` (`simpro.py` lines 268-273): default `None` to a
fresh empty list, insert `"Name"` at position 0 of the caller's list,
then delegate to `_list_all` with `Company.type_url_suffix = "/companies/"`
(line 218). -/
def Company_list_all (records : List (Nat × Dict PyVal)) (parent : SPObj)
    (columns : Option (List String)) : ListAllRun :=
  let cols := columns.getD []
  _list_all records "/companies/" parent ("Name" :: cols)

-- ## Retrieve (`simpro.py` lines 171-193)

/-- A response to a single-record GET/POST. A success is a JSON object
whose identity field the code pops (`obj_attributes.pop("ID")`,
line 184), modelled as the id paired with the remaining attributes; a
failure is any non-2xx response, which `response.raise_for_status()`
turns into one `requests.exceptions.HTTPError` carrying the status. -/
inductive HttpResponse where
  | success (record_id : Nat) (attributes : Dict PyVal)
  | failure (status : Nat)

/-- The exceptions `_retrieve` can raise: `raise_for_status` raises the
single class `requests.exceptions.HTTPError` for every non-2xx status;
the status code is carried inside the exception. -/
inductive SimProError where
  | httpError (status : Nat)

/-- `SimProObject._retrieve` (`simpro.py` lines 171-186): convert the
columns (mutating the caller's list when not `None`), resolve the
instance address, issue the GET against the transport, raise `HTTPError`
on any non-2xx response, else decode the single record. The second
component is the caller's column list after the call. -/
def _retrieve (env : Env) (http_get : String → HttpResponse)
    (cls_sfx : String) (record_id : Nat) (parent : SPObj)
    (columns : Option (List String)) :
    Except SimProError SPObj × List String :=
  let cp := _columns_to_params columns
  let request_url := SPObj.obj_url env parent ++ cls_sfx ++ toString record_id
  match http_get request_url with
  | .failure status => (Except.error (SimProError.httpError status), cp.2)
  | .success rid attrs => (Except.ok (SPObj.mk cls_sfx rid parent attrs), cp.2)

/-- `SimProObject.retrieve` (`simpro.py` lines 188-193): default `None`
to a fresh empty list, then delegate to `_retrieve`. -/
def retrieve (env : Env) (http_get : String → HttpResponse)
    (cls_sfx : String) (record_id : Nat) (parent : SPObj)
    (columns : Option (List String)) :
    Except SimProError SPObj × List String :=
  let cols := columns.getD []
  _retrieve env http_get cls_sfx record_id parent (some cols)

-- ## Class factory (`simpro.py` lines 291-339)

/-- The `ClassDescription` dataclass (`simpro.py` lines 291-310). Bases
are recorded by name only, which is all `build_classes` consumes from
them. -/
structure ClassDescription where
  name : String
  bases : Option (List String)
  type_url_suffix : String
  docstring : Option String
  attributes : Option (List String)
  definitions : Option (Dict PyVal)

/-- A class produced by `type(name, bases, definitions)` in
`build_classes` (`simpro.py` line 337): its name, its base classes, and
the definitions dict copied into its namespace. -/
structure GeneratedClass where
  name : String
  bases : List String
  defs : Dict PyVal

/-- The effective `type_url_suffix` of a generated class: the entry the
factory placed (or a `definitions` override replaced) in its namespace
dict. -/
def GeneratedClass.url_sfx (c : GeneratedClass) : Option PyVal :=
  Dict.get c.defs "type_url_suffix"

/-- `ClassDescription.build_classes` (`simpro.py` lines 312-339): for
each description in order, derive from `SimProObject` plus any extra
bases (`if cls.bases:` is Python truthiness, so `None` and the empty
tuple are alike), seed the definitions dict with the description's
`type_url_suffix`, add `__doc__` and `attributes` when truthy, apply
`definitions` when it is a dict, and append the new class. No
validation of any kind is performed. -/
def build_classes (class_descriptions : List ClassDescription) :
    List GeneratedClass :=
  class_descriptions.map (fun cls =>
    let bases := "SimProObject" :: (match cls.bases with
      | none => []
      | some bs => bs)
    let defs : Dict PyVal := [("type_url_suffix", PyVal.str cls.type_url_suffix)]
    let defs := match cls.docstring with
      | some d => if d = "" then defs else Dict.insert defs "__doc__" (PyVal.str d)
      | none => defs
    let defs := match cls.attributes with
      | some a =>
          if a = [] then defs
          else Dict.insert defs "attributes" (PyVal.list (a.map PyVal.str))
      | none => defs
    let defs := match cls.definitions with
      | some dd => Dict.update defs dd
      | none => defs
    ⟨cls.name, bases, defs⟩)

-- ## Bootstrap: create_site (`simple_bootstrap.py` lines 35-65)

/-- Python `str.replace("\n", "")` for the one-character pattern the
source uses: drop every newline character. -/
def py_replace_newline (s : String) : String :=
  String.mk (s.data.filter (fun c => c ≠ '\n'))

/-- Python `str.split()` with no argument: split on runs of whitespace,
discarding empty pieces. -/
def py_split_ws_aux : List Char → List Char → List String
  | [], [] => []
  | [], acc => [String.mk acc.reverse]
  | c :: cs, acc =>
    if c.isWhitespace then
      match acc with
      | [] => py_split_ws_aux cs []
      | _ :: _ => String.mk acc.reverse :: py_split_ws_aux cs []
    else py_split_ws_aux cs (c :: acc)

def py_split_ws (s : String) : List String := py_split_ws_aux s.data []

/-- The name normalization inside `set_name` (`simple_bootstrap.py`
lines 43-44): `street_address.replace("\n", "")` then
`" ".join(name.split())`. -/
def set_name_normalize (street_address : String) : String :=
  String.intercalate " " (py_split_ws (py_replace_newline street_address))

/-- The inner function `create_site.set_name` (`simple_bootstrap.py`
lines 37-48). When `"Name"` is absent, look up `"Address"`, then the
street address under its `"Address"` key, and normalize it; missing
keys leave the name `""`. When `"Name"` is present, return its value
(any Python value). `none` marks the inputs on which the Python code
raises a `TypeError`/`AttributeError` (a non-dict `"Address"` value or
a non-string street address), which no claim exercises. -/
def set_name (site_attributes : Dict PyVal) : Option PyVal :=
  if Dict.hasKey site_attributes "Name" then
    some ((Dict.get site_attributes "Name").getD (PyVal.str ""))
  else
    match Dict.get site_attributes "Address" with
    | none => some (PyVal.str "")
    | some (PyVal.dict address) =>
        match Dict.get address "Address" with
        | none => some (PyVal.str "")
        | some (PyVal.str street_address) =>
            some (PyVal.str (set_name_normalize street_address))
        | some _ => none
    | some _ => none

/-- The record attributes `create_site` posts (`simple_bootstrap.py`
lines 50-51): `{"Name": set_name()}` updated with the caller's
`site_attributes`, so an explicit caller `"Name"` overrides the derived
one. -/
def create_site_record_attributes (site_attributes : Dict PyVal) :
    Option (Dict PyVal) :=
  (set_name site_attributes).map
    (fun n => Dict.update [("Name", n)] site_attributes)

/-- Outcome of one underlying `Site.create` attempt, as the `requests`
layer surfaces it: a created site, an `HTTPError` (the only class the
`except` clause catches, raised for every non-2xx response regardless
of whether the failure is transient), or any other exception. -/
inductive CreateOutcome where
  | ok (site : SPObj)
  | httpError (status : Nat)
  | otherError (msg : String)

/-- Result of `create_site`: the created site, the distinct
`JobRecordCreationError` (`simple_bootstrap.py` lines 29-30) raised when
the loop exhausts its attempts, or an exception the loop does not catch,
propagating immediately. -/
inductive SiteResult where
  | ok (site : SPObj)
  | jobRecordCreationError
  | uncaught (msg : String)

/-- The `for _ in range(3)` retry loop of `create_site`
(`simple_bootstrap.py` lines 55-63): try `Site.create`; on `HTTPError`
consume the attempt and continue; on success break; on any other
exception propagate; when the range is exhausted, the `for`-`else`
raises `JobRecordCreationError`. `attempt i` is the outcome of the
i-th underlying create attempt (0-based); the second component counts
underlying attempts made. -/
def create_site_loop (attempt : Nat → CreateOutcome) :
    Nat → Nat → SiteResult × Nat
  | _, 0 => (SiteResult.jobRecordCreationError, 0)
  | i, remaining + 1 =>
    match attempt i with
    | CreateOutcome.ok site => (SiteResult.ok site, 1)
    | CreateOutcome.httpError _ =>
        let rest := create_site_loop attempt (i + 1) remaining
        (rest.1, rest.2 + 1)
    | CreateOutcome.otherError msg => (SiteResult.uncaught msg, 1)

/-- `create_site` (`simple_bootstrap.py` lines 35-65): build the record
attributes (deriving a name when absent), then attempt the create up to
3 times. The attempt outcomes are a function of the posted body and the
attempt index, standing for the external server. `none` again marks the
inputs on which `set_name` raises. -/
def create_site (attempt : Dict PyVal → Nat → CreateOutcome)
    (site_attributes : Dict PyVal) : Option (SiteResult × Nat) :=
  (create_site_record_attributes site_attributes).map
    (fun record_attributes => create_site_loop (attempt record_attributes) 0 3)

-- ## Bootstrap: create_job (`simple_bootstrap.py` lines 68-107)

def DEFAULT_COST_CENTER : Int := 0

/-- The cost center details `create_job` posts (`simple_bootstrap.py`
line 99). -/
def job_cost_center_details : Dict PyVal :=
  [("CostCenter", PyVal.int DEFAULT_COST_CENTER), ("Name", PyVal.str "BOQ")]

/-- The body-building prefix of `create_job` (`simple_bootstrap.py`
lines 78-85): merge `{"Type": "Service", "Customer": customer.record_id}`
with the caller's `job_attributes`; when the merged attributes lack
`"Site"`, create a site and write its record id into the caller's
`job_attributes` dict — after `record_attributes` was already built.
Returns the body passed to `Job.create` and the caller's
`job_attributes` dict after the call. -/
def create_job_effects (customer_record_id : Nat) (site_record_id : Nat)
    (job_attributes : Dict PyVal) : Dict PyVal × Dict PyVal :=
  let record_attributes :=
    Dict.update [("Type", PyVal.str "Service"),
      ("Customer", PyVal.int customer_record_id)] job_attributes
  if Dict.hasKey record_attributes "Site" then
    (record_attributes, job_attributes)
  else
    (record_attributes,
      Dict.insert job_attributes "Site" (PyVal.int site_record_id))

/-- Server-side state of one job section: its record id and its cost
center records (id and attributes), in server-returned order. -/
structure SectionState where
  record_id : Nat
  costCenters : List (Nat × Dict PyVal)

/-- Server-side state relevant to the ensure idiom: the job's sections
in server-returned order, plus the server's next fresh record id. -/
structure JobState where
  sections : List SectionState
  nextId : Nat

/-- The ensure-default-child suffix of `create_job`
(`simple_bootstrap.py` lines 89-101): list the job's sections; if none
exist create exactly one, else use the first; then list that section's
cost centers and create one with `job_cost_center_details` only if none
exist. -/
def create_job_ensure_defaults (st : JobState) : JobState :=
  match st.sections with
  | [] =>
    let sectionId := st.nextId
    let costCenterId := st.nextId + 1
    ⟨[⟨sectionId, [(costCenterId, job_cost_center_details)]⟩], st.nextId + 2⟩
  | s :: rest =>
    match s.costCenters with
    | [] => ⟨⟨s.record_id, [(st.nextId, job_cost_center_details)]⟩ :: rest,
        st.nextId + 1⟩
    | _ :: _ => st

-- ## Theorems

/-- Claim C2: the resolved address of an instance is its parent's
resolved address followed by the instance's `type_url_suffix` and the
decimal string of its id; the `Parentless` sentinel resolves to
`BASE_API_URL`; and for a grandchild at depth 3 the address is the base
address followed by each ancestor's segment and id in root-to-leaf
order, ending with the grandchild's own segment and id. -/
theorem obj_url_spec :
    ∀ (env : Env) (p : SPObj) (s1 s2 s3 : String) (i1 i2 i3 : Nat)
      (a1 a2 a3 : Dict PyVal),
      SPObj.obj_url env SPObj.parentless = BASE_API_URL env
      ∧ SPObj.obj_url env (SPObj.mk s1 i1 p a1)
          = SPObj.obj_url env p ++ s1 ++ toString i1
      ∧ SPObj.obj_url env
          (SPObj.mk s3 i3
            (SPObj.mk s2 i2 (SPObj.mk s1 i1 SPObj.parentless a1) a2) a3)
          = BASE_API_URL env ++ s1 ++ toString i1 ++ s2 ++ toString i2
              ++ s3 ++ toString i3 := by
  intro env p s1 s2 s3 i1 i2 i3 a1 a2 a3
  refine ⟨rfl, rfl, rfl⟩

/-- Helper for Claim C1: behaviour of the `_list_all` page loop from an
arbitrary 1-based page index. The loop returns every record from that
page on (decoded, in page order) and issues
`max 1 (ceil(N / 250) - (page - 1))` page requests. -/
theorem _list_all_loop_spec (records : List (Nat × Dict PyVal))
    (cls_sfx : String) (parent : SPObj) (page : Nat) :
    1 ≤ page →
      (_list_all_loop records cls_sfx parent page).1
        = ((records.drop ((page - 1) * 250)).map
            (fun r => SPObj.mk cls_sfx r.1 parent r.2))
      ∧ (_list_all_loop records cls_sfx parent page).2
        = max 1 ((records.length + 249) / 250 - (page - 1)) := by
  induction page using _list_all_loop.induct records cls_sfx parent with
  | case1 page h ih =>
    intro hp
    obtain ⟨ih1, ih2⟩ := ih (by omega)
    have hlt : page * 250 < records.length := by
      simpa [simulated_page] using h
    unfold _list_all_loop
    rw [dif_pos h]
    dsimp only
    simp only [simulated_page]
    simp only [Nat.add_sub_cancel] at ih1 ih2
    refine ⟨?_, ?_⟩
    · rw [ih1, ← List.map_append]
      have hd : List.drop (page * 250) records
          = List.drop 250 (List.drop ((page - 1) * 250) records) := by
        have e : (page - 1) * 250 + 250 = page * 250 := by omega
        rw [List.drop_drop, e]
      rw [hd, List.take_append_drop]
    · rw [ih2]
      omega
  | case2 page h =>
    intro hp
    have hge : ¬ page * 250 < records.length := by
      simpa [simulated_page] using h
    unfold _list_all_loop
    rw [dif_neg h]
    dsimp only
    simp only [simulated_page]
    refine ⟨?_, ?_⟩
    · rw [List.take_of_length_le]
      simp only [List.length_drop]
      omega
    · omega

/-- Claim C1: against a simulated parent with `N` child records and the
fixed page size 250, `list_all` starts at page 1 (definitionally: the
loop is entered at index 1), continues exactly while the response
carries the next-link (the loop recurses on `(simulated_page records
page).2` and on nothing else — in particular not on the number of items
returned), issues exactly `ceil(N / 250)` page requests with a minimum
of one even when `N = 0`, and returns exactly the `N` decoded instances
concatenated in page order. -/
theorem list_all_pagination :
    ∀ (records : List (Nat × Dict PyVal)) (cls_sfx : String) (parent : SPObj)
      (columns : Option (List String)),
      (list_all records cls_sfx parent columns).requests
          = max 1 ((records.length + 249) / 250)
      ∧ (list_all records cls_sfx parent columns).children
          = records.map (fun r => SPObj.mk cls_sfx r.1 parent r.2) := by
  intro records cls_sfx parent columns
  obtain ⟨h1, h2⟩ := _list_all_loop_spec records cls_sfx parent 1 (by omega)
  simp only [Nat.sub_self, Nat.zero_mul, List.drop_zero, Nat.sub_zero] at h1 h2
  exact ⟨by simp [list_all, _list_all, h2], by simp [list_all, _list_all, h1]⟩

/-- Claim C10: for every caller-supplied (non-`None`) column list,
`list_all`, `Company.list_all` and `retrieve` mutate the caller's list
in place: `_columns_to_params` appends `"ID"` to it, and
`Company.list_all` additionally inserts `"Name"` at the front, so the
caller's list is strictly longer after each call than before. -/
theorem columns_mutation :
    ∀ (cols : List String) (records : List (Nat × Dict PyVal))
      (cls_sfx : String) (parent : SPObj) (env : Env)
      (http_get : String → HttpResponse) (record_id : Nat),
      (list_all records cls_sfx parent (some cols)).columns_after
          = cols ++ ["ID"]
      ∧ (Company_list_all records parent (some cols)).columns_after
          = "Name" :: (cols ++ ["ID"])
      ∧ (retrieve env http_get cls_sfx record_id parent (some cols)).2
          = cols ++ ["ID"]
      ∧ cols.length
          < (list_all records cls_sfx parent (some cols)).columns_after.length
      ∧ cols.length
          < (Company_list_all records parent (some cols)).columns_after.length
      ∧ cols.length
          < (retrieve env http_get cls_sfx record_id parent (some cols)).2.length := by
  intro cols records cls_sfx parent env http_get record_id
  have hl : (list_all records cls_sfx parent (some cols)).columns_after
      = cols ++ ["ID"] := by
    simp [list_all, _list_all, _columns_to_params]
  have hc : (Company_list_all records parent (some cols)).columns_after
      = "Name" :: (cols ++ ["ID"]) := by
    simp [Company_list_all, _list_all, _columns_to_params]
  have hr : (retrieve env http_get cls_sfx record_id parent (some cols)).2
      = cols ++ ["ID"] := by
    simp only [retrieve, _retrieve, _columns_to_params, Option.getD_some]
    cases http_get (SPObj.obj_url env parent ++ cls_sfx ++ toString record_id)
      <;> rfl
  refine ⟨hl, hc, hr, ?_, ?_, ?_⟩ <;> (simp [hl, hc, hr]; try omega)

/-- Claim C3 counterexample: the `except HTTPError` clause of
`create_site` catches every `HTTPError`, including non-transient ones
such as a 422 validation response, because `raise_for_status` raises
that one class for every non-2xx status. A validation failure on
attempt 1 is therefore retried: with a 422 on the first attempt and a
success on the second, the call succeeds after 2 underlying attempts —
it does not raise immediately with exactly 1 attempt made as the claim
states. -/
theorem create_site_nontransient_counterexample :
    create_site
        (fun _ i => if i = 0 then CreateOutcome.httpError 422
          else CreateOutcome.ok (SPObj.mk "/sites/" 1 SPObj.parentless []))
        []
      = some (SiteResult.ok (SPObj.mk "/sites/" 1 SPObj.parentless []), 2) :=
  rfl

/-- Claim C3 as amended: `create_site` with its fixed bound of 3 makes
exactly 3 underlying attempts and succeeds when the create fails with
`HTTPError` exactly twice then succeeds; when all 3 attempts fail with
`HTTPError` it raises the distinct `JobRecordCreationError` (not the
underlying transport error) after exactly 3 attempts; and when an
exception that is not an `HTTPError` occurs on attempt 1 it propagates
immediately with exactly 1 attempt made. `HTTPError`s are retried
regardless of transience: the loop does not distinguish validation or
not-found responses from transient failures. -/
theorem create_site_retry_spec :
    ∀ (a b : Nat) (s : SPObj) (g : Nat → Nat) (m : String)
      (rest : Nat → CreateOutcome),
      create_site (fun _ i => if i = 0 then CreateOutcome.httpError a
          else if i = 1 then CreateOutcome.httpError b
          else CreateOutcome.ok s) []
        = some (SiteResult.ok s, 3)
      ∧ create_site (fun _ i => CreateOutcome.httpError (g i)) []
        = some (SiteResult.jobRecordCreationError, 3)
      ∧ create_site (fun _ i => if i = 0 then CreateOutcome.otherError m
          else rest i) []
        = some (SiteResult.uncaught m, 1) := by
  intro a b s g m rest
  refine ⟨rfl, rfl, rfl⟩

/-- Claim C4 counterexample: `set_name` runs
`street_address.replace("\n", "")`, which deletes the newline without
inserting a space, so the words around the newline are glued together:
the derived name for the street address `"Line1\nExtra   spaces"` is
`"Line1Extra spaces"`, not `"Line1 Extra spaces"` as the claim states. -/
theorem set_name_counterexample :
    create_site_record_attributes
        [("Address", PyVal.dict [("Address", PyVal.str "Line1\nExtra   spaces")])]
      = some [("Name", PyVal.str "Line1Extra spaces"),
          ("Address", PyVal.dict [("Address", PyVal.str "Line1\nExtra   spaces")])]
    ∧ "Line1Extra spaces" ≠ "Line1 Extra spaces" := by
  refine ⟨rfl, by decide⟩

/-- Claim C4 as amended: with no `"Name"` key and a nested street
address `"Line1\nExtra   spaces"`, the name `create_site` posts is
`"Line1Extra spaces"` (the newline is deleted outright and the
remaining internal whitespace collapsed to single spaces); and whenever
the attribute mapping carries an explicit `"Name"`, the derived value
is discarded and the caller-supplied one is posted. -/
theorem set_name_derivation :
    (∀ (site_attributes : Dict PyVal) (address : Dict PyVal),
      Dict.hasKey site_attributes "Name" = false →
      Dict.get site_attributes "Address" = some (PyVal.dict address) →
      Dict.get address "Address" = some (PyVal.str "Line1\nExtra   spaces") →
      (create_site_record_attributes site_attributes).map
          (fun ra => Dict.get ra "Name")
        = some (some (PyVal.str "Line1Extra spaces")))
    ∧ (∀ (site_attributes : Dict PyVal) (v : PyVal),
      Dict.NodupKeys site_attributes →
      Dict.get site_attributes "Name" = some v →
      (create_site_record_attributes site_attributes).map
          (fun ra => Dict.get ra "Name")
        = some (some v)) := by
  constructor
  · intro sa address hname haddr hstreet
    have hnorm : set_name_normalize "Line1\nExtra   spaces"
        = "Line1Extra spaces" := rfl
    simp only [create_site_record_attributes, set_name, hname,
      Bool.false_eq_true, if_false, haddr, hstreet, hnorm, Option.map_some']
    rw [Dict.get_update_of_not_hasKey _ _ _ hname]
    simp [Dict.get]
  · intro sa v hnodup hget
    have hname : Dict.hasKey sa "Name" = true := Dict.hasKey_of_get sa _ v hget
    simp only [create_site_record_attributes, set_name, hname, if_true,
      hget, Option.getD_some, Option.map_some']
    rw [Dict.get_update_of_get _ sa "Name" v hnodup hget]

/-- Claim C4 witness: the amended derivation at concrete inputs — the
mapping with only the nested address yields the posted name
`"Line1Extra spaces"`, and a mapping with an explicit `"Name"` keeps
the caller-supplied value. -/
theorem set_name_derivation_witness :
    (create_site_record_attributes
        [("Address",
          PyVal.dict [("Address", PyVal.str "Line1\nExtra   spaces")])]).map
        (fun ra => Dict.get ra "Name")
      = some (some (PyVal.str "Line1Extra spaces"))
    ∧ (create_site_record_attributes [("Name", PyVal.str "Custom")]).map
        (fun ra => Dict.get ra "Name")
      = some (some (PyVal.str "Custom")) :=
  ⟨set_name_derivation.1 _ [("Address", PyVal.str "Line1\nExtra   spaces")]
      rfl rfl rfl,
   set_name_derivation.2 _ (PyVal.str "Custom")
      (by simp [Dict.NodupKeys]) rfl⟩

/-- Claim C5 counterexample: `build_classes` keeps no name-keyed
registry — it returns one class per description in order, so a list
with two descriptions named `"X"` yields two generated classes named
`"X"`, not exactly one. -/
theorem build_classes_duplicate_counterexample :
    ((build_classes
        [⟨"X", none, "/a/", none, none, none⟩,
         ⟨"X", none, "/b/", none, none, none⟩]).filter
        (fun c => c.name = "X")).length = 2 := by
  decide

/-- Claim C5 as amended: `build_classes` yields exactly one generated
class per description, in registration order (its names are the
descriptions' names in order); for two descriptions `A` then `A2`
sharing a name, both classes are produced, and the later one — the one
a consumer keying classes by name would retain — carries `A2`'s address
segment. -/
theorem build_classes_last_registration :
    (∀ (ds : List ClassDescription),
      (build_classes ds).map (fun c => c.name) = ds.map (fun d => d.name))
    ∧ ∀ (nm s1 s2 : String),
      build_classes [⟨nm, none, s1, none, none, none⟩,
          ⟨nm, none, s2, none, none, none⟩]
        = [⟨nm, ["SimProObject"], [("type_url_suffix", PyVal.str s1)]⟩,
           ⟨nm, ["SimProObject"], [("type_url_suffix", PyVal.str s2)]⟩]
      ∧ ((build_classes [⟨nm, none, s1, none, none, none⟩,
          ⟨nm, none, s2, none, none, none⟩]).filter
          (fun c => c.name = nm)).length = 2
      ∧ ((build_classes [⟨nm, none, s1, none, none, none⟩,
          ⟨nm, none, s2, none, none, none⟩]).filter
          (fun c => c.name = nm)).getLast?.map GeneratedClass.url_sfx
        = some (some (PyVal.str s2)) := by
  constructor
  · intro ds
    simp [build_classes]
  · intro nm s1 s2
    refine ⟨rfl, ?_, ?_⟩ <;>
      simp [build_classes, List.filter, GeneratedClass.url_sfx, Dict.get]

/-- Claim C6 counterexample: registration of a description whose
address segment is the empty string succeeds — `build_classes` performs
no validation and returns a generated class carrying the empty
segment, rather than rejecting it with a configuration error. -/
theorem build_classes_empty_segment_counterexample :
    build_classes [⟨"Broken", none, "", none, none, none⟩]
      = [⟨"Broken", ["SimProObject"], [("type_url_suffix", PyVal.str "")]⟩] :=
  rfl

/-- Claim C6 as amended: `build_classes` accepts every description —
it always returns exactly one generated class per description, and a
description with an empty `type_url_suffix` yields a class whose
effective segment is the empty string; no failure occurs at
registration time (any misbehaviour is deferred to use of the
generated type). -/
theorem build_classes_no_validation :
    ∀ (nm : String) (ds : List ClassDescription),
      (build_classes ds).length = ds.length
      ∧ build_classes [⟨nm, none, "", none, none, none⟩]
          = [⟨nm, ["SimProObject"], [("type_url_suffix", PyVal.str "")]⟩]
      ∧ (build_classes [⟨nm, none, "", none, none, none⟩]).map
          GeneratedClass.url_sfx = [some (PyVal.str "")] := by
  intro nm ds
  refine ⟨by simp [build_classes], rfl, ?_⟩
  simp [build_classes, GeneratedClass.url_sfx, Dict.get]

/-- Claim C7 counterexample: `_retrieve` funnels every non-2xx response
through `response.raise_for_status()`, which raises the single class
`requests.exceptions.HTTPError` — a missing record (404) and a server
failure (500) surface as the same error kind, differing only in the
carried status, so retrieve does not fail with a not-found error kind
distinct from the generic transport error. -/
theorem retrieve_not_found_counterexample :
    (_retrieve ⟨"example"⟩ (fun _ => HttpResponse.failure 404) "/jobs/" 7
        SPObj.parentless none).1
      = Except.error (SimProError.httpError 404)
    ∧ (_retrieve ⟨"example"⟩ (fun _ => HttpResponse.failure 500) "/jobs/" 7
        SPObj.parentless none).1
      = Except.error (SimProError.httpError 500) :=
  ⟨rfl, rfl⟩

/-- Claim C7 as amended: `retrieve` of a nonexistent record id raises
the same `HTTPError` exception class as any other non-success response
— for every status, the error is `SimProError.httpError status`, one
undifferentiated kind whose carried status code (404 for not-found) is
the caller's only way to distinguish the cases. -/
theorem retrieve_error_class :
    ∀ (env : Env) (status : Nat) (cls_sfx : String) (record_id : Nat)
      (parent : SPObj) (columns : Option (List String)),
      (retrieve env (fun _ => HttpResponse.failure status) cls_sfx record_id
          parent columns).1
        = Except.error (SimProError.httpError status) := by
  intro env status cls_sfx record_id parent columns
  rfl

/-- Claim C8: the ensure-default-child idiom of `create_job` is
idempotent — a second run against the state left by the first changes
nothing (in particular it creates no duplicate section or cost
center), and after the first run the job has a first section with at
least one cost center. -/
theorem ensure_defaults_idempotent :
    ∀ (st : JobState),
      create_job_ensure_defaults (create_job_ensure_defaults st)
          = create_job_ensure_defaults st
      ∧ ∃ (s : SectionState) (rest : List SectionState),
          (create_job_ensure_defaults st).sections = s :: rest
          ∧ s.costCenters ≠ [] := by
  intro st
  obtain ⟨sections, nextId⟩ := st
  cases sections with
  | nil => exact ⟨rfl, _, _, rfl, by simp⟩
  | cons s rest =>
    obtain ⟨sid, ccs⟩ := s
    cases ccs with
    | nil => exact ⟨rfl, _, _, rfl, by simp⟩
    | cons c ccrest => exact ⟨rfl, _, _, rfl, by simp⟩

/-- Claim C9: when the merged record attributes contain no `"Site"`
key, `create_job` creates a site and writes its record id into the
caller's `job_attributes` dict — but the body it passes to
`Job.create` is the `record_attributes` dict built beforehand, so that
body never contains a `"Site"` key: the created site is not linked to
the created job. -/
theorem create_job_site_not_linked :
    ∀ (customer_record_id site_record_id : Nat) (job_attributes : Dict PyVal),
      Dict.hasKey job_attributes "Site" = false →
      Dict.hasKey (create_job_effects customer_record_id site_record_id
          job_attributes).1 "Site" = false
      ∧ Dict.get (create_job_effects customer_record_id site_record_id
          job_attributes).2 "Site" = some (PyVal.int site_record_id) := by
  intro cid sid ja h
  have hmerged : Dict.hasKey (Dict.update [("Type", PyVal.str "Service"),
      ("Customer", PyVal.int cid)] ja) "Site" = false := by
    rw [Dict.hasKey_update, h]
    simp [Dict.hasKey, Dict.get]
  constructor
  · simp only [create_job_effects, hmerged, Bool.false_eq_true, if_false]
  · simp only [create_job_effects, hmerged, Bool.false_eq_true, if_false]
    rw [Dict.get_insert]
    simp

/-- Claim C9 witness: the linkage gap at a concrete input — for a job
attribute dict without `"Site"`, the body passed to `Job.create` lacks
`"Site"` while the caller's dict gains the created site's id. -/
theorem create_job_site_not_linked_witness :
    Dict.hasKey (create_job_effects 5 9 [("Name", PyVal.str "Job")]).1 "Site"
        = false
    ∧ Dict.get (create_job_effects 5 9 [("Name", PyVal.str "Job")]).2 "Site"
        = some (PyVal.int 9) :=
  create_job_site_not_linked 5 9 [("Name", PyVal.str "Job")] rfl

end PySimPro
